import Mathlib

/-!
Verification of the stake-protocol plugin (stafiprotocol/eliza, plugin-solana).

The development shallowly embeds the pool-data provider
(`providers/stakeProtocol.ts` and its later revision `src/unnamed/part_002`),
the liquid-stake action (`actions/liquidStake.ts`, `actions/stakeUtils.ts`,
`src/unnamed/part_001`) and the restake action (`actions/restake.ts`).
External effects (HTTP fetch, on-chain RPC, LLM calls, SDK transaction
building) are abstracted as environments that resolve each call; the code
around them is translated statement by statement.  Every await in the
source completes before the following statement runs, so executions are
captured by a single linear trace of events.
-/

deriving instance DecidableEq for Except

namespace StakeSpec

/-- Provider configuration constant MAX_RETRIES from PROVIDER_CONFIG. -/
def MAX_RETRIES : Nat := 3

/-- Provider configuration constant RETRY_DELAY (milliseconds). -/
def RETRY_DELAY : Nat := 2000

/-- Provider configuration constant CACHE_TTL (seconds). -/
def CACHE_TTL : Nat := 300

/-- Errors a JS computation can throw in this model: the initial
`let lastError;` (undefined), an error raised by `fetch` or by
`response.json()`, or the `new Error("HTTP error! status: ...")` thrown on a
non-ok response. -/
inductive JsError (ε : Type) where
  | undefined
  | raised (e : ε)
  | httpError (status : Nat)
  deriving DecidableEq

/-- How the environment resolves one `fetch(url, options)` call together with
the subsequent `response.json()`: either the fetch itself rejects, or it
resolves to a response with an `ok` flag, a status, and a body whose JSON
parse either succeeds or throws. -/
inductive FetchResult (ε α : Type) where
  | throw (e : ε)
  | response (ok : Bool) (status : Nat) (json : Except ε α)

/-- The overall outcome of one attempt of the retry loop body: the code first
awaits `fetch`, then throws an httpError if `!response.ok`, and otherwise
awaits `response.json()`. -/
def attemptOutcome : FetchResult ε α → Except (JsError ε) α
  | .throw e => .error (.raised e)
  | .response ok status json =>
    if ok then
      match json with
      | .ok v => .ok v
      | .error e => .error (.raised e)
    else .error (.httpError status)

/-- Observable events of a provider execution: an HTTP fetch of a URL, a
`setTimeout` wait, or the on-chain `stakePoolInfo` RPC for a pool address. -/
inductive Event where
  | fetch (url : String)
  | sleep (ms : Nat)
  | rpcStakePoolInfo (address : String)
  deriving DecidableEq

/-- The `for (let i = 0; i < MAX_RETRIES; i++)` loop of `fetchWithRetry`:
on success the parsed JSON is returned at once; on a failed attempt the
error is remembered as `lastError` and a RETRY_DELAY wait runs before the
next iteration; when the loop ends, `throw lastError`. -/
def retryLoop (url : String) (env : Nat → FetchResult ε α) (i : Nat)
    (fuel : Nat) (lastError : JsError ε) : List Event × Except (JsError ε) α :=
  match fuel with
  | 0 => ([], .error lastError)
  | fuel + 1 =>
    match attemptOutcome (env i) with
    | .ok v => ([.fetch url], .ok v)
    | .error e =>
      let rest := retryLoop url env (i + 1) fuel e
      (.fetch url :: .sleep RETRY_DELAY :: rest.1, rest.2)

/-- `StakeProtocolProvider.fetchWithRetry`: the attempt environment `env`
resolves the i-th fetch of `url`.  Returns the trace of fetch and sleep
events together with the resolved value or the thrown error. -/
def fetchWithRetry (url : String) (env : Nat → FetchResult ε α) :
    List Event × Except (JsError ε) α :=
  retryLoop url env 0 MAX_RETRIES .undefined

/-- Number of fetch attempts recorded in a trace. -/
def countFetches (t : List Event) : Nat :=
  (t.filter fun e => match e with | .fetch _ => true | _ => false).length

section C1

variable {ε α : Type}

/-- C1: fetchWithRetry makes at most MAX_RETRIES = 3 attempts; an attempt
that resolves ok returns the parsed JSON at once; every failed attempt is
followed by a RETRY_DELAY = 2000 ms wait, including the third; after three
failures the error of the last attempt is thrown. -/
theorem c1_fetchWithRetry_retries (url : String) (env : Nat → FetchResult ε α) :
    countFetches (fetchWithRetry url env).1 ≤ MAX_RETRIES ∧
    (∀ v, attemptOutcome (env 0) = .ok v →
      fetchWithRetry url env = ([.fetch url], .ok v)) ∧
    (∀ e0 v, attemptOutcome (env 0) = .error e0 → attemptOutcome (env 1) = .ok v →
      fetchWithRetry url env =
        ([.fetch url, .sleep RETRY_DELAY, .fetch url], .ok v)) ∧
    (∀ e0 e1 v, attemptOutcome (env 0) = .error e0 →
      attemptOutcome (env 1) = .error e1 → attemptOutcome (env 2) = .ok v →
      fetchWithRetry url env =
        ([.fetch url, .sleep RETRY_DELAY, .fetch url, .sleep RETRY_DELAY,
          .fetch url], .ok v)) ∧
    (∀ e0 e1 e2, attemptOutcome (env 0) = .error e0 →
      attemptOutcome (env 1) = .error e1 → attemptOutcome (env 2) = .error e2 →
      fetchWithRetry url env =
        ([.fetch url, .sleep RETRY_DELAY, .fetch url, .sleep RETRY_DELAY,
          .fetch url, .sleep RETRY_DELAY], .error e2)) := by
  refine ⟨?_, ?_, ?_, ?_, ?_⟩
  · rcases h0 : attemptOutcome (env 0) with e0 | v0 <;>
      rcases h1 : attemptOutcome (env 1) with e1 | v1 <;>
        rcases h2 : attemptOutcome (env 2) with e2 | v2 <;>
          simp [fetchWithRetry, MAX_RETRIES, retryLoop, h0, h1, h2, countFetches]
  · intro v h0
    simp [fetchWithRetry, MAX_RETRIES, retryLoop, h0]
  · intro e0 v h0 h1
    simp [fetchWithRetry, MAX_RETRIES, retryLoop, h0, h1]
  · intro e0 e1 v h0 h1 h2
    simp [fetchWithRetry, MAX_RETRIES, retryLoop, h0, h1, h2]
  · intro e0 e1 e2 h0 h1 h2
    simp [fetchWithRetry, MAX_RETRIES, retryLoop, h0, h1, h2]

/-- Witness for C1: a run whose first two attempts fail (a rejected fetch,
then a 500 response) and whose third succeeds, and a run whose three
attempts all fail. -/
theorem c1_fetchWithRetry_retries_witness :
    fetchWithRetry "https://apy.marinade.finance/marinade"
        (fun i => if i = 0 then FetchResult.throw "down"
          else if i = 1 then FetchResult.response false 500 (.ok (7 : Nat))
          else FetchResult.response true 200 (.ok 7)) =
      ([.fetch "https://apy.marinade.finance/marinade", .sleep 2000,
        .fetch "https://apy.marinade.finance/marinade", .sleep 2000,
        .fetch "https://apy.marinade.finance/marinade"], .ok 7) ∧
    fetchWithRetry "https://api.marinade.finance/tlv"
        (fun _ => (FetchResult.throw "down" : FetchResult String Nat)) =
      ([.fetch "https://api.marinade.finance/tlv", .sleep 2000,
        .fetch "https://api.marinade.finance/tlv", .sleep 2000,
        .fetch "https://api.marinade.finance/tlv", .sleep 2000],
        .error (.raised "down")) := by
  constructor
  · exact (c1_fetchWithRetry_retries _ _).2.2.2.1 (.raised "down") (.httpError 500) 7
      rfl rfl rfl
  · exact (c1_fetchWithRetry_retries _ _).2.2.2.2 (.raised "down") (.raised "down")
      (.raised "down") rfl rfl rfl

end C1

/-- One entry of the STAKE_POOLS table. -/
structure StakePool where
  address : String
  protocolName : String
  deriving DecidableEq

/-- The STAKE_POOLS object of `actions/liquidStake.ts` (also repeated in
`src/unnamed/part_000` and as the default poolList of `src/unnamed/part_001`),
as the ordered list of its entries; `Object.entries` preserves this insertion
order. -/
def STAKE_POOLS : List (String × StakePool) :=
  [("jito", ⟨"Jito4APyf642JPZPx3hGc6WWJ8zPKtRbRs4P815Awbb", "Jito"⟩),
   ("blaze", ⟨"stk9ApL5HeVAwPLr3TLhDXdZS8ptVu7zp6ov8HFDuMi", "Blaze"⟩),
   ("marginfi", ⟨"DqhH94PjkZsjAqEze2BEkWhFQJ6EyU6MdtMphMgnXqeK", "Marginfi"⟩),
   ("jpool", ⟨"CtMyWsrUtAwXWiGr9WjHT5fC3p3fgV8cyGpLTo2LJzG1", "JPool"⟩),
   ("marinade", ⟨"MckGXZC1GbLqTK1vaSWsjRvWg5G3tj8hpXfaHYBqqKy", "Marinade"⟩)]

/-- The JSON bodies the aggregating fetchPoolData reads: it accesses only the
`apy` field (of the Marinade APY endpoint) and the `total_sol` field (of the
Marinade TVL endpoint); numbers are modelled as rationals. -/
structure JsonVal where
  apy : Rat
  total_sol : Rat
  deriving DecidableEq

/-- One entry of the pools record built by the aggregating fetchPoolData
(interface StakePoolInfo of `providers/stakeProtocol.ts`). -/
structure StakePoolInfoRec where
  apy : Rat
  tvl : Rat
  protocolName : String
  deriving DecidableEq

/-- The StakeProtocolData record of `providers/stakeProtocol.ts`: the pools
record (as its ordered entry list) and the timestamp set at build time. -/
structure StakeProtocolData where
  pools : List (String × StakePoolInfoRec)
  timestamp : Nat
  deriving DecidableEq

/-- `MarinadeUtils.lamportsToSol`: division of a lamport amount by 10^9. -/
def lamportsToSol (lamports : Int) : Rat :=
  (lamports : Rat) / 1000000000

/-- Environment resolving the external calls of the aggregating
fetchPoolData: the attempt-indexed outcomes of the two Marinade HTTP
endpoints, and the `stakePoolInfo` RPC result (totalLamports, or a thrown
error) per pool address. -/
structure PoolEnv (ε : Type) where
  marinadeApy : Nat → FetchResult ε JsonVal
  marinadeTvl : Nat → FetchResult ε JsonVal
  rpc : String → Except ε Int

/-- URL of the Marinade APY endpoint. -/
def marinadeApyUrl : String := "https://apy.marinade.finance/marinade"

/-- URL of the Marinade TVL endpoint. -/
def marinadeTvlUrl : String := "https://api.marinade.finance/tlv"

/-- The body of the per-pool loop of the aggregating fetchPoolData (before
its catch): `apy` and `tvl` start at 0; for Marinade the APY endpoint is
fetched first, then the TVL endpoint, and `tvl := tvlData.total_sol`,
`apy := apyData.apy`; for every other pool `stakePoolInfo` is called on the
pool address, `tvl := lamportsToSol(poolInfo.totalLamports)`, a 1000 ms
sleep runs, and `apy` keeps its initial value 0. -/
def fetchOnePool (env : PoolEnv ε) (pool : StakePool) :
    List Event × Except (JsError ε) StakePoolInfoRec :=
  if pool.protocolName = "Marinade" then
    let apyRes := fetchWithRetry marinadeApyUrl env.marinadeApy
    match apyRes.2 with
    | .error e => (apyRes.1, .error e)
    | .ok apyData =>
      let tvlRes := fetchWithRetry marinadeTvlUrl env.marinadeTvl
      match tvlRes.2 with
      | .error e => (apyRes.1 ++ tvlRes.1, .error e)
      | .ok tvlData =>
        (apyRes.1 ++ tvlRes.1,
          .ok ⟨apyData.apy, tvlData.total_sol, pool.protocolName⟩)
  else
    match env.rpc pool.address with
    | .error e => ([.rpcStakePoolInfo pool.address], .error (.raised e))
    | .ok lamports =>
      ([.rpcStakePoolInfo pool.address, .sleep 1000],
        .ok ⟨0, lamportsToSol lamports, pool.protocolName⟩)

/-- One iteration of the `for (const [key, pool] of
Object.entries(STAKE_POOLS))` loop: a per-pool error is caught and only
logged, so a failed pool contributes no entry; a successful pool appends
`pools[key] = info`. -/
def poolLoopStep (env : PoolEnv ε)
    (acc : List Event × List (String × StakePoolInfoRec))
    (kp : String × StakePool) :
    List Event × List (String × StakePoolInfoRec) :=
  let r := fetchOnePool env kp.2
  (acc.1 ++ r.1,
    match r.2 with
    | .ok info => acc.2 ++ [(kp.1, info)]
    | .error _ => acc.2)

/-- The per-pool loop over the STAKE_POOLS entries. -/
def fetchAllPools (env : PoolEnv ε) :
    List Event × List (String × StakePoolInfoRec) :=
  STAKE_POOLS.foldl (poolLoopStep env) ([], [])

/-- The pools entry a pool contributes: its key and info on success, nothing
when its fetch failed. -/
def successEntry (env : PoolEnv ε) (kp : String × StakePool) :
    Option (String × StakePoolInfoRec) :=
  match (fetchOnePool env kp.2).2 with
  | .ok info => some (kp.1, info)
  | .error _ => none

/-- State of a NodeCache instance: stored key/value pairs with their expiry
instants (stdTTL seconds after the set). -/
structure CacheEntry (α : Type) where
  value : α
  expiry : Nat
  deriving DecidableEq

/-- NodeCache state as an association list. -/
abbrev NodeCacheSt (α : Type) := List (String × CacheEntry α)

/-- `cache.get(key)`: the stored value, provided it has not expired. -/
def cacheGet (c : NodeCacheSt α) (key : String) (now : Nat) : Option α :=
  match c.find? (fun kv => kv.1 = key) with
  | some kv => if now < kv.2.expiry then some kv.2.value else none
  | none => none

/-- `cache.set(key, value)` with the configured stdTTL. -/
def cacheSet (c : NodeCacheSt α) (key : String) (v : α) (now ttl : Nat) :
    NodeCacheSt α :=
  (key, ⟨v, now + ttl⟩) :: c.filter (fun kv => kv.1 ≠ key)

/-- The aggregating `StakeProtocolProvider.fetchPoolData`
(`providers/stakeProtocol.ts`, first revision): return the cached
StakeProtocolData when present; otherwise run the per-pool loop, build the
data with `timestamp: Date.now()`, store it under the single key
"stake_pool_data" and return it.  Returns the event trace, the data, and
the cache state after the call. -/
def fetchPoolData (env : PoolEnv ε) (cache : NodeCacheSt StakeProtocolData)
    (now : Nat) : List Event × StakeProtocolData × NodeCacheSt StakeProtocolData :=
  match cacheGet cache "stake_pool_data" now with
  | some cached => ([], cached, cache)
  | none =>
    let r := fetchAllPools env
    let data : StakeProtocolData := ⟨r.2, now⟩
    (r.1, data, cacheSet cache "stake_pool_data" data now CACHE_TTL)

/-- The remote-info `StakeProtocolProvider.fetchPoolData`
(`providers/stakeProtocol.ts`, second revision): cached under the same
single key; on a miss it fetches `{base}/api/stake-pool-info` where base is
the STAKE_POOL_REQUEST_BASE_URL setting or "http://127.0.0.1:6666", caches
the result and returns it; the fetch can throw. -/
def fetchPoolDataRemote (setting : Option String) (env : Nat → FetchResult ε α)
    (cache : NodeCacheSt α) (now : Nat) :
    List Event × Except (JsError ε) (α × NodeCacheSt α) :=
  match cacheGet cache "stake_pool_data" now with
  | some cached => ([], .ok (cached, cache))
  | none =>
    let base := setting.getD "http://127.0.0.1:6666"
    let r := fetchWithRetry (base ++ "/api/stake-pool-info") env
    match r.2 with
    | .ok d => (r.1, .ok (d, cacheSet cache "stake_pool_data" d now CACHE_TTL))
    | .error e => (r.1, .error e)

/-- The `StakeProtocolProvider.fetchPoolData` of `src/unnamed/part_002`: the
class holds no cache, so every call fetches `{base}/api/stake-pool-info`
where base defaults to "https://eliza-provider-api.stafi.io". -/
def fetchPoolDataNoCache (setting : Option String)
    (env : Nat → FetchResult ε α) : List Event × Except (JsError ε) α :=
  let base := setting.getD "https://eliza-provider-api.stafi.io"
  fetchWithRetry (base ++ "/api/stake-pool-info") env

/-! ### Reply formatting (`getFormattedStakeData`) -/

/-- The decimal digit character for `d % 10`. -/
def digitChar (d : Nat) : Char := Char.ofNat (48 + d % 10)

/-- `Number.prototype.toFixed(2)`: the number rounded to hundredths and
printed with exactly two digits after the decimal point. -/
def toFixed2 (q : Rat) : String :=
  let sign := if q < 0 then "-" else ""
  let n := (|q| * 100 + 1 / 2).floor.toNat
  sign ++ toString (n / 100) ++ "." ++ String.mk [digitChar (n / 10), digitChar n]

/-- Split a digit list (least significant first) into groups of three. -/
def chunk3 : List Char → List (List Char)
  | a :: b :: c :: rest => [a, b, c] :: chunk3 rest
  | [] => []
  | l => [l]

/-- Insert thousands separators into a digit list (most significant first). -/
def groupThousands (digits : List Char) : List Char :=
  (List.intercalate [','] (chunk3 digits.reverse)).reverse

/-- Drop trailing zero characters. -/
def trimRightZeros (l : List Char) : List Char :=
  (l.reverse.dropWhile (fun c => c = '0')).reverse

/-- `Number.prototype.toLocaleString()` (en-US default): thousands-grouped
integer part and at most three rounded fraction digits. -/
def toLocaleStringJs (q : Rat) : String :=
  let sign := if q < 0 then "-" else ""
  let n := (|q| * 1000 + 1 / 2).floor.toNat
  let fp := n % 1000
  let fracDigits := trimRightZeros [digitChar (fp / 100), digitChar (fp / 10), digitChar fp]
  sign ++ String.mk (groupThousands (toString (n / 1000)).toList) ++
    (if fracDigits.isEmpty then "" else "." ++ String.mk fracDigits)

/-- The block `getFormattedStakeData` appends for one pools entry. -/
def poolBlock (kp : String × StakePoolInfoRec) : String :=
  kp.2.protocolName ++ ":\n" ++ "• APY: " ++ toFixed2 kp.2.apy ++ "%\n" ++
    "• TVL: $" ++ toLocaleStringJs kp.2.tvl ++ "\n\n"

/-- The formatting loop of `StakeProtocolProvider.getFormattedStakeData`:
starting from the header, each pools entry appends its protocol name, APY
line and TVL line. -/
def formatStakeData (data : StakeProtocolData) : String :=
  data.pools.foldl
    (fun output kp =>
      output ++ kp.2.protocolName ++ ":\n" ++ "• APY: " ++ toFixed2 kp.2.apy ++
        "%\n" ++ "• TVL: $" ++ toLocaleStringJs kp.2.tvl ++ "\n\n")
    "Available Liquid Staking Protocols:\n\n"

/-- `StakeProtocolProvider.getFormattedStakeData`: format the result of
`fetchPoolData`. -/
def getFormattedStakeData (env : PoolEnv ε) (cache : NodeCacheSt StakeProtocolData)
    (now : Nat) : String :=
  formatStakeData (fetchPoolData env cache now).2.1

/-! ### The exported provider (`stakeProtocolProvider.get`) -/

/-- The fixed reply of the catch branch of `stakeProtocolProvider.get`. -/
def apology : String :=
  "Sorry, I couldn\x27t fetch the stake protocol data at the moment."

/-- `stakeProtocolProvider.get`, first revision of
`providers/stakeProtocol.ts`: the whole body sits in a try whose catch
returns the apology; the body builds a fresh provider and returns
`getFormattedStakeData`, which cannot throw (every per-pool fetch error is
caught inside the loop), so the resolved value is always the formatted
string. -/
def stakeProtocolProviderGetV1 (env : PoolEnv ε) (now : Nat) :
    Except (JsError ε) (String ⊕ String) :=
  .ok (.inl (getFormattedStakeData env [] now))

/-- `stakeProtocolProvider.get`, second revision of
`providers/stakeProtocol.ts`: a fresh provider (hence an empty cache) is
created, `getStakePoolInfo` runs in a try, and the catch resolves with the
apology string. -/
def stakeProtocolProviderGetV2 (setting : Option String)
    (env : Nat → FetchResult ε α) (now : Nat) : Except (JsError ε) (α ⊕ String) :=
  match (fetchPoolDataRemote setting env ([] : NodeCacheSt α) now).2 with
  | .ok d => .ok (.inl d.1)
  | .error _ => .ok (.inr apology)

/-- `stakeProtocolProvider.get` of `src/unnamed/part_002`: `getStakePoolInfo`
runs in a try and the catch resolves with the apology string. -/
def stakeProtocolProviderGetV3 (setting : Option String)
    (env : Nat → FetchResult ε α) : Except (JsError ε) (α ⊕ String) :=
  match (fetchPoolDataNoCache setting env).2 with
  | .ok d => .ok (.inl d)
  | .error _ => .ok (.inr apology)

/-! ### JS values and the STAKE_SOL handler (`actions/liquidStake.ts`) -/

/-- JS values as far as this code inspects them. -/
inductive JsVal where
  | str (s : String)
  | num (q : Rat)
  | nul
  | undefined
  | boolean (b : Bool)
  deriving DecidableEq

/-- JS truthiness of a value. -/
def truthy : JsVal → Bool
  | .str s => s != ""
  | .num q => q != 0
  | .nul => false
  | .undefined => false
  | .boolean b => b

/-- A string value, or the empty string (unreachable after the type guard). -/
def jsStrOrEmpty : JsVal → String
  | .str s => s
  | _ => ""

/-- `value.toLowerCase()`: succeeds on strings (lowering each character) and
throws a TypeError on everything else. -/
def jsToLowerCase : JsVal → Except String String
  | .str s => .ok (String.mk (s.data.map Char.toLower))
  | _ => .error "TypeError: toLowerCase is not a function"

/-- The object `generateObject` extracts from the chat, with the three
fields the stake handler reads. -/
structure ExtractedContent where
  userAddress : JsVal
  amountSol : JsVal
  poolName : JsVal
  deriving DecidableEq

/-- The isStakeParams type guard: userAddress must be a string and amountSol
a number or a string. -/
def isStakeParams (c : ExtractedContent) : Bool :=
  (match c.userAddress with | .str _ => true | _ => false) &&
  ((match c.amountSol with | .num _ => true | _ => false) ||
   (match c.amountSol with | .str _ => true | _ => false))

/-- The numeric value of a digit string. -/
def digitsVal (ds : List Char) : Nat :=
  ds.foldl (fun a c => a * 10 + (c.toNat - 48)) 0

/-- `parseFloat` on a string: optional sign, integer digits, optional
fraction digits; `none` is NaN. -/
def parseFloatStr (s : String) : Option Rat :=
  let cs := s.toList
  let signed : Int × List Char := match cs with
    | '-' :: t => (-1, t)
    | '+' :: t => (1, t)
    | _ => (1, cs)
  let intDigits := signed.2.takeWhile Char.isDigit
  let rest := signed.2.dropWhile Char.isDigit
  let fracDigits := match rest with
    | '.' :: t => t.takeWhile Char.isDigit
    | _ => []
  if intDigits.isEmpty && fracDigits.isEmpty then none
  else some ((signed.1 : Rat) * ((digitsVal intDigits : Rat) +
    (digitsVal fracDigits : Rat) / ((10 : Rat) ^ fracDigits.length)))

/-- `parseFloat(content.amountSol as string)`: a number passes through (its
string form parses back to itself), a string is parsed, anything else is
NaN. -/
def parseFloatJs : JsVal → Option Rat
  | .num q => some q
  | .str s => parseFloatStr s
  | _ => none

/-- Decimal fraction digits (up to 17, trailing zeros removed) of a rational
in [0, 1). -/
def fracPartDigits (q : Rat) : List Char :=
  let n := (q * 10 ^ 17).floor.toNat
  let s := (toString n).toList
  trimRightZeros (List.replicate (17 - s.length) '0' ++ s)

/-- Decimal rendering of a rational, standing in for JS number-to-string. -/
def ratToDecString (q : Rat) : String :=
  let sign := if q < 0 then "-" else ""
  let fdigits := fracPartDigits (|q| - |q|.floor)
  sign ++ toString |q|.floor.toNat ++
    (if fdigits.isEmpty then "" else "." ++ String.mk fdigits)

/-- Rendering of a JS number that may be NaN. -/
def jsNumToString : Option Rat → String
  | none => "NaN"
  | some q => ratToDecString q

/-- String interpolation of a JS value. -/
def jsToString : JsVal → String
  | .str s => s
  | .num q => ratToDecString q
  | .nul => "null"
  | .undefined => "undefined"
  | .boolean b => if b then "true" else "false"

/-- The bitcoin base58 alphabet used by bs58. -/
def BASE58_ALPHABET : List Char :=
  "123456789ABCDEFGHJKLMNPQRSTUVWXYZabcdefghijkmnopqrstuvwxyz".toList

/-- Base58 digits (most significant first) of a natural number. -/
def natToBase58 : Nat → Nat → List Char → List Char
  | 0, _, acc => acc
  | _ + 1, 0, acc => acc
  | fuel + 1, n, acc =>
    natToBase58 fuel (n / 58) (BASE58_ALPHABET.getD (n % 58) '1' :: acc)

/-- The big-endian value of a byte list. -/
def bytesToNat (bs : List Nat) : Nat :=
  bs.foldl (fun a b => a * 256 + b % 256) 0

/-- `bs58.encode`: leading zero bytes become leading ones, the rest is the
base58 expansion of the big-endian value. -/
def base58Encode (bs : List Nat) : String :=
  let leadingZeros := (bs.takeWhile (fun b => b % 256 = 0)).length
  let n := bytesToNat bs
  String.mk (List.replicate leadingZeros '1' ++ natToBase58 (n + 1) n [])

/-- A call of the handler callback: the reply text and the optional
`content.error` string. -/
structure CallbackMsg where
  text : String
  error : Option String
  deriving DecidableEq

/-- Callback message of the failed type guard. -/
def invalidContentMsg : CallbackMsg :=
  ⟨"Unable to process stake request. Invalid content provided.",
    some "Invalid stake content"⟩

/-- Callback message of a falsy LLM pool selection. -/
def invalidSelectedPoolMsg : CallbackMsg :=
  ⟨"Unable to process stake request. Invalid selected pool.",
    some "Invalid selected pool"⟩

/-- Callback message of a pool name missing from the pool table. -/
def invalidPoolNameMsg (poolName : JsVal) : CallbackMsg :=
  ⟨"Invalid pool name: " ++ jsToString poolName ++
      ". Please choose either \"jito\" or \"blaze\".",
    some "Invalid pool name"⟩

/-- The success reply text: contains the base58-encoded transaction. -/
def stakeSuccessText (amountSol : Option Rat) (protocolName base58Tx : String) :
    String :=
  "Stake " ++ jsNumToString amountSol ++ " SOL in " ++ protocolName ++
    " completed successfully! Transaction: " ++ base58Tx

/-- Environment resolving the external calls of the STAKE_SOL handler: the
content extracted by the LLM, the `selectedPool` field of the second LLM
reply, the `new PublicKey(userAddress)` parse, and the try-block transaction
construction (PublicKey of the pool address, the Marinade or spl-stake-pool
deposit, and serialization) resolved to the serialized bytes or a thrown
error.  The pool data fetched on the selection path only feeds the LLM
prompt, whose reply is `selectedPool`. -/
structure HandlerEnv where
  content : ExtractedContent
  selectedPool : JsVal
  parseUserKey : String → Except String Unit
  build : StakePool → Option Rat → Except String (List Nat)

/-- Pool-name resolution of the handler: when `content.poolName` is the
empty string or null, the LLM-selected pool is used provided it is truthy;
otherwise the user-named pool. -/
def selectPoolName (content : ExtractedContent) (selectedPool : JsVal) :
    Option JsVal :=
  if content.poolName = JsVal.str "" ∨ content.poolName = JsVal.nul then
    if truthy selectedPool then some selectedPool else none
  else some content.poolName

/-- `config.pools[key]` lookup in the STAKE_POOLS table. -/
def lookupPool (key : String) : Option StakePool :=
  (STAKE_POOLS.find? (fun kp => kp.1 = key)).map Prod.snd

/-- The STAKE_SOL handler of `actions/liquidStake.ts`: guard the extracted
content, resolve the pool (LLM selection when poolName is empty or null),
look the name up in the pool table, parse the user key (outside the try),
build and serialize the transaction (inside the try), and reply.  The value
is `.error` when the handler itself throws, and otherwise the returned
boolean with the callback invocations. -/
def stakeSolHandler (env : HandlerEnv) : Except String (Bool × List CallbackMsg) :=
  if isStakeParams env.content = false then
    .ok (false, [invalidContentMsg])
  else
    let userAddress := jsStrOrEmpty env.content.userAddress
    let amountSol := parseFloatJs env.content.amountSol
    match selectPoolName env.content env.selectedPool with
    | none => .ok (false, [invalidSelectedPoolMsg])
    | some pn =>
      match jsToLowerCase pn with
      | .error e => .error e
      | .ok key =>
        match lookupPool key with
        | none => .ok (false, [invalidPoolNameMsg pn])
        | some pool =>
          match env.parseUserKey userAddress with
          | .error e => .error e
          | .ok _ =>
            match env.build pool amountSol with
            | .error e => .ok (false, [⟨"Error during staking: " ++ e, some e⟩])
            | .ok txBytes =>
              .ok (true,
                [⟨stakeSuccessText amountSol pool.protocolName
                    (base58Encode txBytes), none⟩])

/-! ### The RESTAKE action (`actions/restake.ts`) -/

/-- Name of the restake action. -/
def RESTAKE_NAME : String := "RESTAKE"

/-- Description of the restake action. -/
def RESTAKE_DESCRIPTION : String := "Restake sol to solayer"

/-- The Solayer endpoint `getServerSignedTx` posts to. -/
def solayerRestakeUrl (amount : String) : String :=
  "https://app.solayer.org/api/action/restake/ssol?amount=" ++ amount

/-! ### The pool-list refresh of the `src/unnamed/part_001` handler -/

/-- The initial module-level poolList of `src/unnamed/part_001` (same five
entries as STAKE_POOLS). -/
def defaultPoolList : List (String × StakePool) := STAKE_POOLS

/-- The refresh step at the top of that STAKE_SOL handler: when
`getStakePoolList` throws, the handler aborts and the module variable keeps
its value; when it resolves, the list replaces poolList only if it has at
least one key. -/
def updatePoolList (cur : List (String × StakePool))
    (fetched : Except (JsError String) (List (String × StakePool))) :
    List (String × StakePool) :=
  match fetched with
  | .error _ => cur
  | .ok l => if l.length ≠ 0 then l else cur

/-- The module-level poolList after a sequence of handler invocations whose
`getStakePoolList` outcomes are given newest first. -/
def poolListAfter :
    List (Except (JsError String) (List (String × StakePool))) →
    List (String × StakePool)
  | [] => defaultPoolList
  | f :: rest => updatePoolList (poolListAfter rest) f

/-! ### Properties of the per-pool loop -/

/-- Unfolding of the per-pool loop: the trace is the concatenation of the
per-pool traces and the pools record collects exactly the successful
entries. -/
theorem poolLoop_foldl (env : PoolEnv ε) :
    ∀ (l : List (String × StakePool))
      (acc : List Event × List (String × StakePoolInfoRec)),
      l.foldl (poolLoopStep env) acc =
        (acc.1 ++ (l.map fun kp => (fetchOnePool env kp.2).1).flatten,
         acc.2 ++ l.filterMap (successEntry env))
  | [], acc => by simp
  | kp :: l, acc => by
    rw [List.foldl_cons, poolLoop_foldl env l]
    rcases h : (fetchOnePool env kp.2).2 with e | info <;>
      simp [poolLoopStep, successEntry, h]

/-- The keys of the collected entries are the keys of the pools whose fetch
succeeded, in order. -/
theorem successEntry_keys (env : PoolEnv ε) :
    ∀ l : List (String × StakePool),
      (l.filterMap (successEntry env)).map Prod.fst =
        (l.filter fun kp =>
          match (fetchOnePool env kp.2).2 with
          | .ok _ => true
          | .error _ => false).map Prod.fst
  | [] => by simp
  | kp :: l => by
    rcases h : (fetchOnePool env kp.2).2 with e | info <;>
      simp [successEntry, h, successEntry_keys env l]

section C9

variable {ε : Type}

/-- C9: in the aggregating fetchPoolData a per-pool error is caught inside
the loop; the call resolves with a StakeProtocolData whose pools record has
entries for exactly the pools whose fetch succeeded and whose timestamp is
the call time. -/
theorem c9_pool_errors_isolated (env : PoolEnv ε)
    (cache : NodeCacheSt StakeProtocolData) (now : Nat)
    (h : cacheGet cache "stake_pool_data" now = none) :
    (fetchPoolData env cache now).2.1.timestamp = now ∧
    (fetchPoolData env cache now).2.1.pools =
      STAKE_POOLS.filterMap (successEntry env) ∧
    (fetchPoolData env cache now).2.1.pools.map Prod.fst =
      (STAKE_POOLS.filter fun kp =>
        match (fetchOnePool env kp.2).2 with
        | .ok _ => true
        | .error _ => false).map Prod.fst := by
  have hfold := poolLoop_foldl env STAKE_POOLS ([], [])
  refine ⟨?_, ?_, ?_⟩
  · simp [fetchPoolData, h]
  · simp [fetchPoolData, h, fetchAllPools, hfold]
  · simp [fetchPoolData, h, fetchAllPools, hfold,
      successEntry_keys env STAKE_POOLS]

/-- Witness for C9: with every remote endpoint down and every RPC throwing,
the aggregation still resolves, with an empty pools record and the call
timestamp. -/
theorem c9_pool_errors_isolated_witness :
    (fetchPoolData
        (⟨fun _ => .throw "down", fun _ => .throw "down",
          fun _ => .error "down"⟩ : PoolEnv String) [] 17).2.1.timestamp = 17 ∧
    (fetchPoolData
        (⟨fun _ => .throw "down", fun _ => .throw "down",
          fun _ => .error "down"⟩ : PoolEnv String) [] 17).2.1.pools = [] := by
  have h := c9_pool_errors_isolated
    (⟨fun _ => .throw "down", fun _ => .throw "down",
      fun _ => .error "down"⟩ : PoolEnv String) [] 17 rfl
  exact ⟨h.1, by rw [h.2.1]; rfl⟩

end C9

section C2

variable {ε α : Type}

/-- Storing into the empty cache yields the single entry under the given
key. -/
theorem cacheSet_empty (key : String) (v : α) (now ttl : Nat) :
    cacheSet ([] : NodeCacheSt α) key v now ttl = [(key, ⟨v, now + ttl⟩)] := rfl

/-- Reading the single-entry cache before its expiry returns the stored
value. -/
theorem cacheGet_single (key : String) (v : α) (exp now : Nat)
    (h : now < exp) :
    cacheGet [(key, ⟨v, exp⟩)] key now = some v := by
  simp [cacheGet, List.find?, h]

/-- C2 (amended): in the two cached provider revisions, a fetchPoolData call
on the cache left by an earlier successful call within the 300-second TTL
returns the identical data, stored under the single key "stake_pool_data",
and performs no fetch at all (its trace is empty for every environment).
The `src/unnamed/part_002` revision has no cache (see the
counterexample). -/
theorem c2_single_key_ttl_cache (env env2 : PoolEnv ε) (t0 t1 : Nat)
    (setting : Option String) (renv renv2 : Nat → FetchResult ε α)
    (_h0 : t0 ≤ t1) (h1 : t1 < t0 + CACHE_TTL) :
    (fetchPoolData env2 (fetchPoolData env [] t0).2.2 t1 =
        ([], (fetchPoolData env [] t0).2.1, (fetchPoolData env [] t0).2.2) ∧
      (fetchPoolData env [] t0).2.2.map Prod.fst = ["stake_pool_data"]) ∧
    (∀ d c1, (fetchPoolDataRemote setting renv [] t0).2 = .ok (d, c1) →
      fetchPoolDataRemote setting renv2 c1 t1 = ([], .ok (d, c1)) ∧
      c1.map Prod.fst = ["stake_pool_data"]) := by
  have httl : t1 < t0 + CACHE_TTL := h1
  constructor
  · have hfirst : fetchPoolData env [] t0 =
        ((fetchAllPools env).1, ⟨(fetchAllPools env).2, t0⟩,
          [("stake_pool_data", ⟨⟨(fetchAllPools env).2, t0⟩, t0 + CACHE_TTL⟩)]) := by
      simp [fetchPoolData, cacheGet, cacheSet]
    rw [hfirst]
    constructor
    · simp [fetchPoolData, cacheGet_single _ _ _ _ httl]
    · rfl
  · intro d c1 hok
    rcases hmiss : (fetchWithRetry
        ((setting.getD "http://127.0.0.1:6666") ++ "/api/stake-pool-info")
        renv).2 with e | v
    · exfalso
      simp [fetchPoolDataRemote, cacheGet, hmiss] at hok
    · have hc1 : c1 = [("stake_pool_data", ⟨d, t0 + CACHE_TTL⟩)] := by
        simp [fetchPoolDataRemote, cacheGet, hmiss, cacheSet] at hok
        rw [← hok.2, ← hok.1]
      subst hc1
      refine ⟨?_, rfl⟩
      simp [fetchPoolDataRemote, cacheGet_single _ _ _ _ httl]

end C2

/-- Concrete aggregation environment whose calls all answer at once. -/
def c2envOk : PoolEnv String :=
  ⟨fun _ => .response true 200 (.ok ⟨8, 100⟩),
   fun _ => .response true 200 (.ok ⟨8, 100⟩),
   fun _ => .ok 3000000000⟩

/-- Concrete remote-endpoint environment answering 42 at once. -/
def c2renvOk : Nat → FetchResult String Nat :=
  fun _ => .response true 200 (.ok 42)

section C2W

/-- Witness for C2: with every endpoint answering on the first attempt, a
second call 299 seconds later returns the cached data with an empty trace in
both cached revisions. -/
theorem c2_single_key_ttl_cache_witness :
    (fetchPoolData c2envOk (fetchPoolData c2envOk [] 1000).2.2 1299 =
        ([], (fetchPoolData c2envOk [] 1000).2.1,
          (fetchPoolData c2envOk [] 1000).2.2) ∧
      (fetchPoolData c2envOk [] 1000).2.2.map Prod.fst = ["stake_pool_data"]) ∧
    (∀ d c1,
      (fetchPoolDataRemote (α := Nat) none c2renvOk [] 1000).2 = .ok (d, c1) →
      fetchPoolDataRemote none c2renvOk c1 1299 = ([], .ok (d, c1)) ∧
      c1.map Prod.fst = ["stake_pool_data"]) :=
  c2_single_key_ttl_cache c2envOk c2envOk 1000 1299 none c2renvOk c2renvOk
    (by norm_num) (by norm_num [CACHE_TTL])

end C2W

/-- C2 counterexample: the provider revision of `src/unnamed/part_002` keeps
no cache, so with the remote endpoint answering 42 on every attempt a
fetchPoolData call succeeds and a later call on the same (stateless)
provider runs the same computation: its trace again contains an HTTP fetch,
where the claim requires none. -/
theorem c2_no_cache_in_part_002 :
    (fetchPoolDataNoCache (ε := String) none
        (fun _ => FetchResult.response true 200 (.ok (42 : Nat)))).2 = .ok 42 ∧
    (fetchPoolDataNoCache (ε := String) none
        (fun _ => FetchResult.response true 200 (.ok (42 : Nat)))).1 =
      [.fetch "https://eliza-provider-api.stafi.io/api/stake-pool-info"] :=
  ⟨rfl, rfl⟩

section C3

variable {ε : Type}

/-- C3 (amended): for a pool whose fetch succeeds, the entry records — for
Marinade — the APY of https://apy.marinade.finance/marinade and the
total_sol of https://api.marinade.finance/tlv, and — for every other
protocol — the TVL from the on-chain stakePoolInfo converted from lamports
to SOL while the APY is left at the hard-coded initial value 0 (the code's
mock-data placeholder), not taken from protocol data. -/
theorem c3_per_protocol_metrics (env : PoolEnv ε) :
    (∀ kp, kp ∈ STAKE_POOLS → kp.2.protocolName = "Marinade" →
      ∀ apyData tvlData,
        (fetchWithRetry marinadeApyUrl env.marinadeApy).2 = .ok apyData →
        (fetchWithRetry marinadeTvlUrl env.marinadeTvl).2 = .ok tvlData →
        (fetchOnePool env kp.2).2 =
          .ok ⟨apyData.apy, tvlData.total_sol, kp.2.protocolName⟩) ∧
    (∀ kp, kp ∈ STAKE_POOLS → kp.2.protocolName ≠ "Marinade" →
      ∀ lamports, env.rpc kp.2.address = .ok lamports →
        (fetchOnePool env kp.2).2 =
          .ok ⟨0, lamportsToSol lamports, kp.2.protocolName⟩) := by
  constructor
  · intro kp _ hm apyData tvlData ha ht
    simp [fetchOnePool, hm, ha, ht]
  · intro kp _ hm lamports hr
    simp [fetchOnePool, hm, hr]

/-- Aggregation environment whose on-chain data reports 2 SOL of lamports
for every pool and whose Marinade endpoints are down. -/
def c3envA : PoolEnv String :=
  ⟨fun _ => .throw "down", fun _ => .throw "down", fun _ => .ok 2000000000⟩

/-- Aggregation environment whose on-chain data reports 5 SOL of lamports
for every pool and whose Marinade endpoints report APY 9. -/
def c3envB : PoolEnv String :=
  ⟨fun _ => .response true 200 (.ok ⟨9, 9⟩),
   fun _ => .response true 200 (.ok ⟨9, 9⟩), fun _ => .ok 5000000000⟩

/-- C3 counterexample: in two environments whose protocol data differ in
every APY source, the successful Jito entry records TVL 2 and 5 SOL from
the chain but APY 0 both times — the non-Marinade APY is never obtained
from protocol data, contrary to the claim. -/
theorem c3_jito_apy_is_zero :
    (fetchOnePool c3envA
        ⟨"Jito4APyf642JPZPx3hGc6WWJ8zPKtRbRs4P815Awbb", "Jito"⟩).2 =
      .ok ⟨0, 2, "Jito"⟩ ∧
    (fetchOnePool c3envB
        ⟨"Jito4APyf642JPZPx3hGc6WWJ8zPKtRbRs4P815Awbb", "Jito"⟩).2 =
      .ok ⟨0, 5, "Jito"⟩ := by
  constructor <;>
    · simp [fetchOnePool, c3envA, c3envB, lamportsToSol]
      norm_num

/-- Witness for C3: in the environment with working endpoints, the Marinade
entry takes APY and total_sol from the endpoint data and the Jito entry
takes its TVL from the chain with APY 0. -/
theorem c3_per_protocol_metrics_witness :
    (fetchOnePool c2envOk
        ⟨"MckGXZC1GbLqTK1vaSWsjRvWg5G3tj8hpXfaHYBqqKy", "Marinade"⟩).2 =
      .ok ⟨8, 100, "Marinade"⟩ ∧
    (fetchOnePool c2envOk
        ⟨"Jito4APyf642JPZPx3hGc6WWJ8zPKtRbRs4P815Awbb", "Jito"⟩).2 =
      .ok ⟨0, 3, "Jito"⟩ := by
  constructor
  · exact (c3_per_protocol_metrics c2envOk).1
      ("marinade", ⟨"MckGXZC1GbLqTK1vaSWsjRvWg5G3tj8hpXfaHYBqqKy", "Marinade"⟩)
      (by simp [STAKE_POOLS]) rfl ⟨8, 100⟩ ⟨8, 100⟩ rfl rfl
  · have h := (c3_per_protocol_metrics c2envOk).2
      ("jito", ⟨"Jito4APyf642JPZPx3hGc6WWJ8zPKtRbRs4P815Awbb", "Jito"⟩)
      (by simp [STAKE_POOLS]) (by simp) 3000000000 rfl
    rw [h]
    simp [lamportsToSol]
    norm_num

end C3

section C5

variable {ε α : Type}

/-- The URL or pool address an event targets; waits target nothing. -/
def eventTag : Event → Option String
  | .fetch u => some u
  | .rpcStakePoolInfo a => some a
  | .sleep _ => none

/-- Every tagged event of a retry-loop trace targets the fetched URL. -/
theorem retryLoop_tags (url : String) (env : Nat → FetchResult ε α)
    (fuel : Nat) : ∀ (i : Nat) (last : JsError ε) (u : String),
    u ∈ (retryLoop url env i fuel last).1.filterMap eventTag → u = url := by
  induction fuel with
  | zero => intro i last u hu; simp [retryLoop] at hu
  | succ fuel ih =>
    intro i last u hu
    rcases h : attemptOutcome (env i) with e | v
    · simp only [retryLoop, h, List.filterMap_cons, eventTag] at hu
      rcases List.mem_cons.mp hu with rfl | hu
      · rfl
      · exact ih (i + 1) e u hu
    · simp [retryLoop, h, eventTag] at hu
      exact hu

/-- Every tagged event of a fetchWithRetry trace targets the fetched URL. -/
theorem fetchWithRetry_tags (url : String) (env : Nat → FetchResult ε α)
    (u : String) :
    u ∈ (fetchWithRetry url env).1.filterMap eventTag → u = url :=
  retryLoop_tags url env MAX_RETRIES 0 .undefined u

/-- For a pool other than Marinade, every tagged event of its retrieval
targets the pool address. -/
theorem fetchOnePool_tags_other (env : PoolEnv ε) (pool : StakePool)
    (h : pool.protocolName ≠ "Marinade") (u : String) :
    u ∈ (fetchOnePool env pool).1.filterMap eventTag → u = pool.address := by
  rcases hr : env.rpc pool.address with e | lam <;>
    simp [fetchOnePool, h, hr, eventTag]

/-- The Marinade retrieval trace splits into a first part targeting only the
APY endpoint and a second part targeting only the TVL endpoint. -/
theorem fetchOnePool_marinade_split (env : PoolEnv ε) (pool : StakePool)
    (h : pool.protocolName = "Marinade") :
    ∃ ta tb, (fetchOnePool env pool).1 = ta ++ tb ∧
      (∀ u ∈ ta.filterMap eventTag, u = marinadeApyUrl) ∧
      (∀ u ∈ tb.filterMap eventTag, u = marinadeTvlUrl) := by
  rcases ha : (fetchWithRetry marinadeApyUrl env.marinadeApy).2 with e | apyData
  · refine ⟨(fetchWithRetry marinadeApyUrl env.marinadeApy).1, [], ?_,
      fun u hu => fetchWithRetry_tags _ _ u hu, by simp⟩
    simp [fetchOnePool, h, ha]
  · rcases ht : (fetchWithRetry marinadeTvlUrl env.marinadeTvl).2 with e | tvlData
    · refine ⟨(fetchWithRetry marinadeApyUrl env.marinadeApy).1,
        (fetchWithRetry marinadeTvlUrl env.marinadeTvl).1, ?_,
        fun u hu => fetchWithRetry_tags _ _ u hu,
        fun u hu => fetchWithRetry_tags _ _ u hu⟩
      simp [fetchOnePool, h, ha, ht]
    · refine ⟨(fetchWithRetry marinadeApyUrl env.marinadeApy).1,
        (fetchWithRetry marinadeTvlUrl env.marinadeTvl).1, ?_,
        fun u hu => fetchWithRetry_tags _ _ u hu,
        fun u hu => fetchWithRetry_tags _ _ u hu⟩
      simp [fetchOnePool, h, ha, ht]

/-- C5: the aggregation trace is the concatenation of one block per pool in
the entry order of STAKE_POOLS — jito, blaze, marginfi, jpool, marinade —
each block targeting only that pool, and inside the Marinade block every
APY-endpoint request precedes every TVL-endpoint request.  Since the model's
linear trace reflects the await-by-await execution of the source (no fetch
is issued before the previous one resolved), no two fetches are ever in
flight at once. -/
theorem c5_fetches_sequential (env : PoolEnv ε) :
    ∃ tJito tBlaze tMarginfi tJpool tMarinade,
      (fetchAllPools env).1 =
        tJito ++ tBlaze ++ tMarginfi ++ tJpool ++ tMarinade ∧
      (∀ u ∈ tJito.filterMap eventTag,
        u = "Jito4APyf642JPZPx3hGc6WWJ8zPKtRbRs4P815Awbb") ∧
      (∀ u ∈ tBlaze.filterMap eventTag,
        u = "stk9ApL5HeVAwPLr3TLhDXdZS8ptVu7zp6ov8HFDuMi") ∧
      (∀ u ∈ tMarginfi.filterMap eventTag,
        u = "DqhH94PjkZsjAqEze2BEkWhFQJ6EyU6MdtMphMgnXqeK") ∧
      (∀ u ∈ tJpool.filterMap eventTag,
        u = "CtMyWsrUtAwXWiGr9WjHT5fC3p3fgV8cyGpLTo2LJzG1") ∧
      (∃ ta tb, tMarinade = ta ++ tb ∧
        (∀ u ∈ ta.filterMap eventTag, u = marinadeApyUrl) ∧
        (∀ u ∈ tb.filterMap eventTag, u = marinadeTvlUrl)) := by
  obtain ⟨ta, tb, hsplit, hta, htb⟩ := fetchOnePool_marinade_split env
    ⟨"MckGXZC1GbLqTK1vaSWsjRvWg5G3tj8hpXfaHYBqqKy", "Marinade"⟩ rfl
  refine ⟨(fetchOnePool env ⟨"Jito4APyf642JPZPx3hGc6WWJ8zPKtRbRs4P815Awbb",
      "Jito"⟩).1,
    (fetchOnePool env ⟨"stk9ApL5HeVAwPLr3TLhDXdZS8ptVu7zp6ov8HFDuMi",
      "Blaze"⟩).1,
    (fetchOnePool env ⟨"DqhH94PjkZsjAqEze2BEkWhFQJ6EyU6MdtMphMgnXqeK",
      "Marginfi"⟩).1,
    (fetchOnePool env ⟨"CtMyWsrUtAwXWiGr9WjHT5fC3p3fgV8cyGpLTo2LJzG1",
      "JPool"⟩).1,
    (fetchOnePool env ⟨"MckGXZC1GbLqTK1vaSWsjRvWg5G3tj8hpXfaHYBqqKy",
      "Marinade"⟩).1,
    ?_,
    fetchOnePool_tags_other env _ (by simp),
    fetchOnePool_tags_other env _ (by simp),
    fetchOnePool_tags_other env _ (by simp),
    fetchOnePool_tags_other env _ (by simp),
    ta, tb, hsplit, hta, htb⟩
  have hfold := poolLoop_foldl env STAKE_POOLS ([], [])
  simp only [fetchAllPools]
  rw [hfold]
  simp [STAKE_POOLS]

/-- Witness for C5: the sequential decomposition at the environment with
working endpoints. -/
theorem c5_fetches_sequential_witness :
    ∃ tJito tBlaze tMarginfi tJpool tMarinade,
      (fetchAllPools c2envOk).1 =
        tJito ++ tBlaze ++ tMarginfi ++ tJpool ++ tMarinade ∧
      (∀ u ∈ tJito.filterMap eventTag,
        u = "Jito4APyf642JPZPx3hGc6WWJ8zPKtRbRs4P815Awbb") ∧
      (∀ u ∈ tBlaze.filterMap eventTag,
        u = "stk9ApL5HeVAwPLr3TLhDXdZS8ptVu7zp6ov8HFDuMi") ∧
      (∀ u ∈ tMarginfi.filterMap eventTag,
        u = "DqhH94PjkZsjAqEze2BEkWhFQJ6EyU6MdtMphMgnXqeK") ∧
      (∀ u ∈ tJpool.filterMap eventTag,
        u = "CtMyWsrUtAwXWiGr9WjHT5fC3p3fgV8cyGpLTo2LJzG1") ∧
      (∃ ta tb, tMarinade = ta ++ tb ∧
        (∀ u ∈ ta.filterMap eventTag, u = marinadeApyUrl) ∧
        (∀ u ∈ tb.filterMap eventTag, u = marinadeTvlUrl)) :=
  c5_fetches_sequential c2envOk

end C5

section C6

/-- C6: the liquid-stake pool table has exactly the five keys jito, blaze,
marginfi, jpool and marinade with the protocol names Jito, Blaze, Marginfi,
JPool and Marinade and fixed on-chain addresses; no entry is Solayer, which
is served by the separate RESTAKE action (name RESTAKE, description
"Restake sol to solayer", posting to the app.solayer.org restake
endpoint). -/
theorem c6_pool_table_and_restake :
    STAKE_POOLS.map Prod.fst =
      ["jito", "blaze", "marginfi", "jpool", "marinade"] ∧
    STAKE_POOLS.map (fun kp => kp.2.protocolName) =
      ["Jito", "Blaze", "Marginfi", "JPool", "Marinade"] ∧
    STAKE_POOLS.map (fun kp => kp.2.address) =
      ["Jito4APyf642JPZPx3hGc6WWJ8zPKtRbRs4P815Awbb",
       "stk9ApL5HeVAwPLr3TLhDXdZS8ptVu7zp6ov8HFDuMi",
       "DqhH94PjkZsjAqEze2BEkWhFQJ6EyU6MdtMphMgnXqeK",
       "CtMyWsrUtAwXWiGr9WjHT5fC3p3fgV8cyGpLTo2LJzG1",
       "MckGXZC1GbLqTK1vaSWsjRvWg5G3tj8hpXfaHYBqqKy"] ∧
    (∀ kp ∈ STAKE_POOLS, kp.1 ≠ "solayer" ∧ kp.2.protocolName ≠ "Solayer") ∧
    RESTAKE_NAME = "RESTAKE" ∧
    RESTAKE_DESCRIPTION = "Restake sol to solayer" ∧
    solayerRestakeUrl "1" =
      "https://app.solayer.org/api/action/restake/ssol?amount=1" := by
  refine ⟨rfl, rfl, rfl, ?_, rfl, rfl, rfl⟩
  simp [STAKE_POOLS]

end C6

section C7

/-- Concatenation of the reply blocks of a pools record. -/
def joinBlocks : List (String × StakePoolInfoRec) → String
  | [] => ""
  | kp :: rest => poolBlock kp ++ joinBlocks rest

/-- The formatting loop appends exactly the blocks of the entries, in
order. -/
theorem formatStakeData_foldl :
    ∀ (l : List (String × StakePoolInfoRec)) (s : String),
      l.foldl (fun output kp =>
        output ++ kp.2.protocolName ++ ":\n" ++ "• APY: " ++
          toFixed2 kp.2.apy ++ "%\n" ++ "• TVL: $" ++
          toLocaleStringJs kp.2.tvl ++ "\n\n") s = s ++ joinBlocks l
  | [], s => by simp [joinBlocks]
  | kp :: l, s => by
    rw [List.foldl_cons, formatStakeData_foldl l]
    simp [joinBlocks, poolBlock, String.append_assoc]

/-- The character of a decimal digit is a digit character. -/
theorem digitChar_isDigit (d : Nat) : (digitChar d).isDigit = true := by
  have h : d % 10 < 10 := Nat.mod_lt d (by norm_num)
  unfold digitChar
  generalize d % 10 = r at h ⊢
  interval_cases r <;> decide

/-- C7: the formatted reply begins with the header
"Available Liquid Staking Protocols:" followed by a blank line, and then,
for each pools entry in order, a block of the protocol name, the APY
rendered with exactly two digits after the decimal point followed by "%",
and the TVL prefixed with "$". -/
theorem c7_formatted_reply (data : StakeProtocolData) :
    (∃ rest, formatStakeData data =
      "Available Liquid Staking Protocols:\n\n" ++ rest) ∧
    formatStakeData data =
      "Available Liquid Staking Protocols:\n\n" ++ joinBlocks data.pools ∧
    (∀ kp ∈ data.pools, poolBlock kp =
      kp.2.protocolName ++ ":\n" ++ "• APY: " ++ toFixed2 kp.2.apy ++ "%\n" ++
        "• TVL: $" ++ toLocaleStringJs kp.2.tvl ++ "\n\n") ∧
    (∀ q : Rat, ∃ intPart c1 c2,
      toFixed2 q = intPart ++ "." ++ String.mk [c1, c2] ∧
      c1.isDigit = true ∧ c2.isDigit = true) := by
  refine ⟨⟨joinBlocks data.pools, ?_⟩, ?_, ?_, ?_⟩
  · exact formatStakeData_foldl data.pools _
  · exact formatStakeData_foldl data.pools _
  · intro kp _
    rfl
  · intro q
    exact ⟨(if q < 0 then "-" else "") ++
        toString ((|q| * 100 + 1 / 2).floor.toNat / 100),
      digitChar ((|q| * 100 + 1 / 2).floor.toNat / 10),
      digitChar (|q| * 100 + 1 / 2).floor.toNat, rfl,
      digitChar_isDigit _, digitChar_isDigit _⟩

/-- Witness for C7: the decomposition at a one-entry pools record. -/
theorem c7_formatted_reply_witness :
    formatStakeData ⟨[("jito", ⟨8, 1234567, "Jito"⟩)], 0⟩ =
      "Available Liquid Staking Protocols:\n\n" ++
        joinBlocks [("jito", ⟨8, 1234567, "Jito"⟩)] :=
  (c7_formatted_reply ⟨[("jito", ⟨8, 1234567, "Jito"⟩)], 0⟩).2.1

end C7

section C8

variable {ε α : Type}

/-- C8: the exported stakeProtocolProvider.get never rejects: in the
`src/unnamed/part_002` and second `providers/stakeProtocol.ts` revisions it
resolves with the apology string exactly when fetching the pool data threw,
and with the fetched data otherwise; in the oldest revision it always
resolves with the formatted pool data. -/
theorem c8_provider_get_total (setting : Option String)
    (renv : Nat → FetchResult ε α) (env : PoolEnv ε) (now : Nat) :
    (∃ r, stakeProtocolProviderGetV3 setting renv = .ok r) ∧
    (∀ e, (fetchPoolDataNoCache setting renv).2 = .error e →
      stakeProtocolProviderGetV3 setting renv = .ok (.inr apology)) ∧
    (∀ d, (fetchPoolDataNoCache setting renv).2 = .ok d →
      stakeProtocolProviderGetV3 setting renv = .ok (.inl d)) ∧
    (∃ r, stakeProtocolProviderGetV2 setting renv now = .ok r) ∧
    (∀ e, (fetchPoolDataRemote setting renv ([] : NodeCacheSt α) now).2 =
        .error e →
      stakeProtocolProviderGetV2 setting renv now = .ok (.inr apology)) ∧
    (∀ d c, (fetchPoolDataRemote setting renv ([] : NodeCacheSt α) now).2 =
        .ok (d, c) →
      stakeProtocolProviderGetV2 setting renv now = .ok (.inl d)) ∧
    stakeProtocolProviderGetV1 env now =
      .ok (.inl (getFormattedStakeData env [] now)) := by
  refine ⟨?_, ?_, ?_, ?_, ?_, ?_, rfl⟩
  · rcases h : (fetchPoolDataNoCache setting renv).2 with e | d
    · exact ⟨.inr apology, by simp [stakeProtocolProviderGetV3, h]⟩
    · exact ⟨.inl d, by simp [stakeProtocolProviderGetV3, h]⟩
  · intro e h
    simp [stakeProtocolProviderGetV3, h]
  · intro d h
    simp [stakeProtocolProviderGetV3, h]
  · rcases h : (fetchPoolDataRemote setting renv ([] : NodeCacheSt α) now).2
      with e | d
    · exact ⟨.inr apology, by simp [stakeProtocolProviderGetV2, h]⟩
    · exact ⟨.inl d.1, by simp [stakeProtocolProviderGetV2, h]⟩
  · intro e h
    simp [stakeProtocolProviderGetV2, h]
  · intro d c h
    simp [stakeProtocolProviderGetV2, h]

/-- Witness for C8: with the remote endpoint down the part_002 get resolves
with the apology; with it answering 42 it resolves with the data. -/
theorem c8_provider_get_total_witness :
    stakeProtocolProviderGetV3 none
        (fun _ => (FetchResult.throw "down" : FetchResult String Nat)) =
      .ok (.inr apology) ∧
    stakeProtocolProviderGetV3 none c2renvOk = .ok (.inl 42) :=
  ⟨(c8_provider_get_total none (fun _ => FetchResult.throw "down")
      c2envOk 0).2.1 (.raised "down") rfl,
   (c8_provider_get_total none c2renvOk c2envOk 0).2.2.1 42 rfl⟩

end C8

section C10

/-- C10: the default pool list has five pools; the refresh replaces it only
with a non-empty remote list (an empty list and a thrown refresh both leave
it unchanged), so after any sequence of handler invocations the pool list
used for extraction and selection has at least one pool. -/
theorem c10_pool_list_stays_nonempty :
    defaultPoolList.length = 5 ∧
    (∀ cur l, l.length ≠ 0 → updatePoolList cur (.ok l) = l) ∧
    (∀ cur : List (String × StakePool), updatePoolList cur (.ok []) = cur) ∧
    (∀ cur e, updatePoolList cur (.error e) = cur) ∧
    (∀ hist, 0 < (poolListAfter hist).length) := by
  refine ⟨rfl, ?_, ?_, ?_, ?_⟩
  · intro cur l h
    simp [updatePoolList, h]
  · intro cur
    simp [updatePoolList]
  · intro cur e
    rfl
  · intro hist
    induction hist with
    | nil => simp [poolListAfter, defaultPoolList, STAKE_POOLS]
    | cons f rest ih =>
      rcases f with e | l
      · simpa [poolListAfter, updatePoolList] using ih
      · by_cases h : l.length = 0
        · simpa [poolListAfter, updatePoolList, h] using ih
        · simpa [poolListAfter, updatePoolList, h] using Nat.pos_of_ne_zero h

/-- Witness for C10: after a failed refresh, an empty remote list and a
two-pool remote list, the pool list is still non-empty. -/
theorem c10_pool_list_stays_nonempty_witness :
    0 < (poolListAfter
        [.error (.raised "down"), .ok [],
          .ok [("jito", ⟨"Jito4APyf642JPZPx3hGc6WWJ8zPKtRbRs4P815Awbb",
            "Jito"⟩)]]).length :=
  c10_pool_list_stays_nonempty.2.2.2.2
    [.error (.raised "down"), .ok [],
      .ok [("jito", ⟨"Jito4APyf642JPZPx3hGc6WWJ8zPKtRbRs4P815Awbb", "Jito"⟩)]]

end C10

section C4

/-- C4: the STAKE_SOL handler returns true only when the extracted content
passes isStakeParams, a pool is resolved (the user-named pool, or the
LLM-selected one when poolName is empty or null), the name is found in the
pool table, and the try-block transaction construction succeeds — and then
the single callback message contains the base58 encoding of the serialized
transaction; when the guard fails, when no pool is selected, when the name
is not in the table, or when transaction construction throws (with the user
key parsed), the callback gets an error message and the handler returns
false. -/
theorem c4_handler_result (env : HandlerEnv) :
    (∀ msgs, stakeSolHandler env = .ok (true, msgs) →
      isStakeParams env.content = true ∧
      ∃ pn key pool txBytes,
        selectPoolName env.content env.selectedPool = some pn ∧
        jsToLowerCase pn = .ok key ∧
        lookupPool key = some pool ∧
        env.build pool (parseFloatJs env.content.amountSol) = .ok txBytes ∧
        ∃ pre, msgs = [⟨pre ++ base58Encode txBytes, none⟩]) ∧
    (isStakeParams env.content = false →
      stakeSolHandler env = .ok (false, [invalidContentMsg])) ∧
    (isStakeParams env.content = true →
      selectPoolName env.content env.selectedPool = none →
      stakeSolHandler env = .ok (false, [invalidSelectedPoolMsg])) ∧
    (∀ pn key, isStakeParams env.content = true →
      selectPoolName env.content env.selectedPool = some pn →
      jsToLowerCase pn = .ok key → lookupPool key = none →
      stakeSolHandler env = .ok (false, [invalidPoolNameMsg pn])) ∧
    (∀ pn key pool e, isStakeParams env.content = true →
      selectPoolName env.content env.selectedPool = some pn →
      jsToLowerCase pn = .ok key → lookupPool key = some pool →
      env.parseUserKey (jsStrOrEmpty env.content.userAddress) = .ok () →
      env.build pool (parseFloatJs env.content.amountSol) = .error e →
      stakeSolHandler env =
        .ok (false, [⟨"Error during staking: " ++ e, some e⟩])) := by
  refine ⟨?_, ?_, ?_, ?_, ?_⟩
  · intro msgs h
    by_cases hg : isStakeParams env.content
    · refine ⟨hg, ?_⟩
      simp only [stakeSolHandler, hg, Bool.true_eq_false, if_false] at h
      split at h
      · simp at h
      · rename_i pn hsel
        split at h
        · simp at h
        · rename_i key hlow
          split at h
          · simp at h
          · rename_i pool hlook
            split at h
            · simp at h
            · rename_i u hkey
              split at h
              · simp at h
              · rename_i txBytes hbuild
                simp only [Except.ok.injEq, Prod.mk.injEq, true_and] at h
                exact ⟨pn, key, pool, txBytes, hsel, hlow, hlook, hbuild,
                  "Stake " ++ jsNumToString (parseFloatJs env.content.amountSol)
                    ++ " SOL in " ++ pool.protocolName ++
                    " completed successfully! Transaction: ", h.symm⟩
    · rw [stakeSolHandler, if_pos (by simpa using hg)] at h
      simp at h
  · intro hg
    simp [stakeSolHandler, hg]
  · intro hg hsel
    simp [stakeSolHandler, hg, hsel]
  · intro pn key hg hsel hlow hlook
    simp [stakeSolHandler, hg, hsel, hlow, hlook]
  · intro pn key pool e hg hsel hlow hlook hkey hbuild
    simp [stakeSolHandler, hg, hsel, hlow, hlook, hkey, hbuild]

/-- Concrete environment for the C4 witness: valid content naming the jito
pool, and a transaction construction that throws. -/
def c4envBuildFails : HandlerEnv :=
  ⟨⟨.str "EugPwuZ8oUMWsYHeBGERWvELfLGFmA1taDtmY8uMeX6r", .num 2, .str "jito"⟩,
    .undefined, fun _ => .ok (), fun _ _ => .error "boom"⟩

/-- Concrete environment for the C4 witness: valid content with an empty
pool name and a falsy LLM selection. -/
def c4envNoSelection : HandlerEnv :=
  ⟨⟨.str "EugPwuZ8oUMWsYHeBGERWvELfLGFmA1taDtmY8uMeX6r", .num 2, .str ""⟩,
    .undefined, fun _ => .ok (), fun _ _ => .ok [1, 2, 3]⟩

/-- Witness for C4: a failed transaction construction yields the error
callback and false, and a falsy pool selection yields the selection error
callback and false. -/
theorem c4_handler_result_witness :
    stakeSolHandler c4envBuildFails =
      .ok (false, [⟨"Error during staking: " ++ "boom", some "boom"⟩]) ∧
    stakeSolHandler c4envNoSelection =
      .ok (false, [invalidSelectedPoolMsg]) :=
  ⟨(c4_handler_result c4envBuildFails).2.2.2.2 (.str "jito") "jito"
      ⟨"Jito4APyf642JPZPx3hGc6WWJ8zPKtRbRs4P815Awbb", "Jito"⟩ "boom"
      (by decide) (by simp [selectPoolName, c4envBuildFails])
      (by decide) (by decide) rfl rfl,
   (c4_handler_result c4envNoSelection).2.2.1 rfl
      (by simp [selectPoolName, c4envNoSelection, truthy])⟩

end C4

end StakeSpec
